import Mathlib

/-!
# Verification of the presence-reconciliation and alarm engine

Shallow embedding of the object-tracking core of the repository:
`src/app/state.py` (geometry, registry helpers, global state),
`src/app/services/tracking_service.py` (add / remove / clear / stop /
interval / monitor cycle / acknowledge) and `config.py` (constants).

Modelling conventions:
* Python floats are embedded as rationals (`ℚ`); all comparisons the code
  performs on them are order comparisons, which agree with the idealized
  rational arithmetic.
* `calculate_bbox_distance` returns `sqrt(dx² + dy²)` and is used only in
  comparisons `distance ≤ t` (with `t ≥ 0`) and `distance < best_distance`.
  We embed the *squared* distance (`calculate_bbox_distance_sq`) and compare
  against squared thresholds; for non-negative quantities this is equivalent.
* `float('inf')` (returned when a bbox is absent/empty) is embedded as `none`
  in `Option ℚ`, with the comparison helpers `dLe` / `dLt` treating `none` as
  `+∞` exactly as the Python comparisons do.
* A bbox slot holds `Option BBox`: `none` models an absent (`None`) or empty
  (`{}`) bbox dictionary, both of which the geometry treats as "no box"
  (distance `+∞`, overlap `0`).  In `is_object_already_tracked` the `bbox`
  argument is `Option BBox` with `none` modelling Python `None` (the key
  missing from the detection), which selects the label-only fallback branch.
* Timestamps (`datetime.now()`, `time.time()`) are a rational `now` passed
  explicitly to every operation that reads the clock; the integer second used
  in the generated id is `⌊now⌋` (Python's `int(time.time())` for positive
  times).
* The socket events emitted by the service are collected in a returned
  `List Event`.
-/

namespace MLproject

/-- A bounding box dictionary `{x, y, width, height}` (all values present;
missing keys default to `0` in the source via `.get(k, 0)`, which is the same
as a box with zero fields). -/
structure BBox where
  x : ℚ
  y : ℚ
  width : ℚ
  height : ℚ
deriving DecidableEq

/-- `d ≤ t` for an extended distance (`none` = `+∞`). -/
def dLe (d : Option ℚ) (t : ℚ) : Bool :=
  match d with
  | some q => decide (q ≤ t)
  | none => false

/-- `a < b` for extended distances (`none` = `+∞`); note `inf < inf` is
false, as in Python float comparison. -/
def dLt (a b : Option ℚ) : Bool :=
  match a, b with
  | some q, some r => decide (q < r)
  | some _, none => true
  | none, _ => false

/-- `state.calculate_bbox_distance`, embedded as the squared Euclidean
distance between box centers; `none` models the `float('inf')` returned when
either box is absent/empty. -/
def calculate_bbox_distance_sq (bbox1 bbox2 : Option BBox) : Option ℚ :=
  match bbox1, bbox2 with
  | some b1, some b2 =>
      let center1_x := b1.x + b1.width / 2
      let center1_y := b1.y + b1.height / 2
      let center2_x := b2.x + b2.width / 2
      let center2_y := b2.y + b2.height / 2
      some ((center1_x - center2_x) ^ 2 + (center1_y - center2_y) ^ 2)
  | _, _ => none

/-- `state.calculate_bbox_overlap_ratio`: intersection area over the smaller
box area; `0` when either box is absent/empty, the boxes do not overlap, or
the smaller area is `0`. -/
def calculate_bbox_overlap_ratio (bbox1 bbox2 : Option BBox) : ℚ :=
  match bbox1, bbox2 with
  | some b1, some b2 =>
      let x1_1 := b1.x
      let y1_1 := b1.y
      let x1_2 := x1_1 + b1.width
      let y1_2 := y1_1 + b1.height
      let x2_1 := b2.x
      let y2_1 := b2.y
      let x2_2 := x2_1 + b2.width
      let y2_2 := y2_1 + b2.height
      let inter_x1 := max x1_1 x2_1
      let inter_y1 := max y1_1 y2_1
      let inter_x2 := min x1_2 x2_2
      let inter_y2 := min y1_2 y2_2
      if inter_x2 ≤ inter_x1 ∨ inter_y2 ≤ inter_y1 then 0
      else
        let intersection_area := (inter_x2 - inter_x1) * (inter_y2 - inter_y1)
        let bbox1_area := b1.width * b1.height
        let bbox2_area := b2.width * b2.height
        let smaller_area := min bbox1_area bbox2_area
        if smaller_area = 0 then 0 else intersection_area / smaller_area
  | _, _ => 0

/-- One detection from the external classifier.  `class_id = none` models a
detection dictionary without the `class_id` key (`detection.get('class_id')`
returning `None`); `bbox = none` models an absent bbox. -/
structure Detection where
  label : String
  confidence : ℚ
  class_id : Option Int
  bbox : Option BBox
deriving DecidableEq

/-- A tracked item as created by `add_to_tracking` (all keys always
present). -/
structure TrackedItem where
  id : String
  label : String
  confidence : ℚ
  class_id : Int
  bbox : Option BBox
  added_at : ℚ
  last_seen : ℚ
  is_present : Bool
  alarm_enabled : Bool
  missing_count : Nat
deriving DecidableEq

/-- `config.Config` tracking constants. -/
def Config.DEFAULT_TRACKING_INTERVAL : Int := 5

def Config.MIN_TRACKING_INTERVAL : Int := 1

def Config.MAX_TRACKING_INTERVAL : Int := 60

def Config.MISSING_ITEM_THRESHOLD_MULTIPLIER : Int := 2

/-- The mutable module-level state of `app/state.py` that the tracking
service reads and writes. -/
structure TrackingState where
  tracked_items : List TrackedItem
  tracking_active : Bool
  tracking_interval : Int
  alarm_active : Bool
  missing_items : List TrackedItem
  latest_detections : List Detection
deriving DecidableEq

def initialState : TrackingState :=
  { tracked_items := []
    tracking_active := false
    tracking_interval := Config.DEFAULT_TRACKING_INTERVAL
    alarm_active := false
    missing_items := []
    latest_detections := [] }

/-- `state.is_object_already_tracked`: one tracked item matches when the
labels are equal, the `class_id` matches whenever one was supplied, and —
when a bbox was supplied — the boxes are within `proximity_threshold` pixels
or overlap with ratio `> 0.3`; with no bbox supplied the label (and class)
match alone suffices (the source's label-only fallback).  The distance
comparison is done on squares (see the header). -/
def is_object_already_tracked (label : String) (class_id : Option Int)
    (bbox : Option BBox) (proximity_threshold : ℚ)
    (items : List TrackedItem) : Bool :=
  items.any fun tracked_item =>
    decide (tracked_item.label = label) &&
    (match class_id with
     | some c => decide (tracked_item.class_id = c)
     | none => true) &&
    (match bbox with
     | some b =>
         dLe (calculate_bbox_distance_sq (some b) tracked_item.bbox)
             (proximity_threshold * proximity_threshold) ||
         decide (calculate_bbox_overlap_ratio (some b) tracked_item.bbox > 3 / 10)
     | none => true)

/-- The tracked item record built by `add_to_tracking` (`n` is
`len(state.tracked_items)` at creation time). -/
def mkTrackedItem (detection : Detection) (n : Nat) (now : ℚ) : TrackedItem :=
  { id := "track_" ++ toString n ++ "_" ++ toString ⌊now⌋
    label := detection.label
    confidence := detection.confidence
    class_id := detection.class_id.getD (-1)
    bbox := detection.bbox
    added_at := now
    last_seen := now
    is_present := true
    alarm_enabled := true
    missing_count := 0 }

/-- `tracking_service.add_to_tracking`: dedup check with proximity threshold
25, then append; returns `none` (the `None` rejection) on a duplicate. -/
def add_to_tracking (detection : Detection) (now : ℚ) (s : TrackingState) :
    Option TrackedItem × TrackingState :=
  if is_object_already_tracked detection.label detection.class_id
      detection.bbox 25 s.tracked_items then
    (none, s)
  else
    let tracking_item := mkTrackedItem detection s.tracked_items.length now
    (some tracking_item,
     { s with tracked_items := s.tracked_items ++ [tracking_item] })

/-- `tracking_service.remove_from_tracking`. -/
def remove_from_tracking (item_id : String) (s : TrackingState) : TrackingState :=
  { s with tracked_items := s.tracked_items.filter fun item => item.id ≠ item_id }

/-- `tracking_service.clear_tracking`: empties the registry and resets the
`tracking_active` and `alarm_active` flags (and nothing else). -/
def clear_tracking (s : TrackingState) : TrackingState :=
  { s with tracked_items := [], tracking_active := false, alarm_active := false }

/-- `tracking_service.stop_tracking`. -/
def stop_tracking (s : TrackingState) : TrackingState :=
  { s with tracking_active := false, alarm_active := false }

/-- A JSON value arriving at `set_tracking_interval`: either a Python `int`
or anything else (`isinstance(new_interval, int)` fails). -/
inductive PyVal where
  | int (n : Int)
  | nonInt
deriving DecidableEq

/-- `tracking_service.set_tracking_interval`: reports failure (first
component `false`) for non-integers and integers outside
`[MIN_TRACKING_INTERVAL, MAX_TRACKING_INTERVAL]`, leaving the state
untouched; otherwise stores the new interval. -/
def set_tracking_interval (new_interval : PyVal) (s : TrackingState) :
    Bool × TrackingState :=
  match new_interval with
  | .int n =>
      if n < Config.MIN_TRACKING_INTERVAL ∨ n > Config.MAX_TRACKING_INTERVAL then
        (false, s)
      else
        (true, { s with tracking_interval := n })
  | .nonInt => (false, s)

/-- The candidate filter of the monitor loop (`tracking_service.py`
lines 113–128): label equality, confidence above the `0.3` tracking
threshold, and box proximity (distance ≤ 100 px, compared on squares) or
overlap ratio `> 0.2`.  Note the loop reads no `class_id`. -/
def isCandidate (tracked_item : TrackedItem) (detection : Detection) : Bool :=
  decide (detection.label = tracked_item.label) &&
  decide (detection.confidence > 3 / 10) &&
  (dLe (calculate_bbox_distance_sq tracked_item.bbox detection.bbox) (100 * 100) ||
   decide (calculate_bbox_overlap_ratio tracked_item.bbox detection.bbox > 1 / 5))

/-- The best-match accumulator loop of the monitor (`best_match` /
`best_distance`, initialized to `None` / `inf`); a candidate replaces the
current best only when strictly closer. -/
def bestLoop (tracked_item : TrackedItem) :
    List Detection → Option Detection × Option ℚ → Option Detection × Option ℚ
  | [], best => best
  | detection :: rest, best =>
      if isCandidate tracked_item detection &&
          dLt (calculate_bbox_distance_sq tracked_item.bbox detection.bbox) best.2 then
        bestLoop tracked_item rest
          (some detection, calculate_bbox_distance_sq tracked_item.bbox detection.bbox)
      else
        bestLoop tracked_item rest best

/-- The full best-match search for one tracked item over the latest
detections. -/
def findBestMatch (tracked_item : TrackedItem) (dets : List Detection) :
    Option Detection × Option ℚ :=
  bestLoop tracked_item dets (none, none)

/-- The per-item body of one monitor cycle (`tracking_service.py`
lines 105–165).  Returns the updated item and whether it joined this cycle's
missing set (`current_missing`). -/
def updateItem (tracked_item : TrackedItem) (dets : List Detection)
    (now : ℚ) (interval : Int) : TrackedItem × Bool :=
  match findBestMatch tracked_item dets with
  | (some best_match, _) =>
      ({ tracked_item with
          last_seen := now
          is_present := true
          bbox := best_match.bbox
          missing_count := 0 }, false)
  | (none, _) =>
      let missing_count := tracked_item.missing_count + 1
      if missing_count ≥ 2 then
        let item := { tracked_item with
          missing_count := missing_count, is_present := false }
        if item.alarm_enabled then
          let threshold_seconds : ℚ :=
            ((interval * Config.MISSING_ITEM_THRESHOLD_MULTIPLIER : Int) : ℚ)
          let time_missing := now - item.last_seen
          (item, decide (time_missing > threshold_seconds))
        else
          (item, false)
      else
        ({ tracked_item with missing_count := missing_count }, false)

/-- The socket events the service emits. -/
inductive Event where
  | alarm_triggered (missing_items : List TrackedItem) (timestamp : ℚ)
  | alarm_cleared (timestamp : ℚ)
  | alarm_acknowledged (timestamp : ℚ)
deriving DecidableEq

def Event.isTriggered : Event → Bool
  | .alarm_triggered _ _ => true
  | _ => false

def Event.isCleared : Event → Bool
  | .alarm_cleared _ => true
  | _ => false

/-- The alarm block at the end of a monitor cycle (`tracking_service.py`
lines 170–183), acting on the freshly computed missing set. -/
def alarmUpdate (alarm_active : Bool) (missing_items : List TrackedItem)
    (now : ℚ) : Bool × List Event :=
  if !missing_items.isEmpty && !alarm_active then
    (true, [Event.alarm_triggered missing_items now])
  else if missing_items.isEmpty && alarm_active then
    (false, [Event.alarm_cleared now])
  else
    (alarm_active, [])

/-- The per-item results of one cycle (updated item, joined-missing flag). -/
def cycleResults (s : TrackingState) (now : ℚ) : List (TrackedItem × Bool) :=
  s.tracked_items.map fun item =>
    updateItem item s.latest_detections now s.tracking_interval

/-- The cycle's freshly computed `current_missing` list. -/
def currentMissing (s : TrackingState) (now : ℚ) : List TrackedItem :=
  ((cycleResults s now).filter fun r => r.2).map Prod.fst

/-- One iteration of the monitor's `while` body: with no tracked items the
cycle skips all work (so `missing_items` and `alarm_active` keep their
values); otherwise every item is updated, `state.missing_items` is replaced
by the freshly computed missing set, and the alarm block runs. -/
def runCycle (s : TrackingState) (now : ℚ) : TrackingState × List Event :=
  if s.tracked_items.isEmpty then
    (s, [])
  else
    ({ s with
        tracked_items := (cycleResults s now).map Prod.fst
        missing_items := currentMissing s now
        alarm_active := (alarmUpdate s.alarm_active (currentMissing s now) now).1 },
     (alarmUpdate s.alarm_active (currentMissing s now) now).2)

/-- A run of consecutive monitor cycles; each input supplies the detection
batch the feed delivered before that cycle and the cycle's wall-clock time. -/
def monitorRun (s : TrackingState) :
    List (List Detection × ℚ) → List (TrackingState × List Event)
  | [] => []
  | (dets, now) :: rest =>
      let step := runCycle { s with latest_detections := dets } now
      step :: monitorRun step.1 rest

/-- Per-cycle flags: was `alarm_triggered` emitted. -/
def triggerFlagsOf (run : List (TrackingState × List Event)) : List Bool :=
  run.map fun step => step.2.any Event.isTriggered

/-- Per-cycle flags: was `alarm_cleared` emitted. -/
def clearFlagsOf (run : List (TrackingState × List Event)) : List Bool :=
  run.map fun step => step.2.any Event.isCleared

/-- Per-cycle flags: was the cycle's missing set non-empty. -/
def missingFlagsOf (run : List (TrackingState × List Event)) : List Bool :=
  run.map fun step => !step.1.missing_items.isEmpty

/-- Modelled from the spec: the edge detector for `alarm_triggered` —
given the per-cycle "missing set non-empty" flags, the event fires exactly on
a transition from empty (previous flag false) to non-empty. -/
def specTriggerEdges (prevNonempty : Bool) : List Bool → List Bool
  | [] => []
  | b :: rest => (b && !prevNonempty) :: specTriggerEdges b rest

/-- Modelled from the spec: the edge detector for `alarm_cleared` — fires
exactly on a transition from non-empty to empty. -/
def specClearEdges (prevNonempty : Bool) : List Bool → List Bool
  | [] => []
  | b :: rest => (!b && prevNonempty) :: specClearEdges b rest

/-- `tracking_service.acknowledge_alarm`'s inner loop: disable the alarm of
the first tracked item carrying the given id (the `break` in the source). -/
def disableFirstById (i : String) : List TrackedItem → List TrackedItem
  | [] => []
  | t :: ts =>
      if t.id = i then { t with alarm_enabled := false } :: ts
      else t :: disableFirstById i ts

/-- `tracking_service.acknowledge_alarm`: disables the alarm of every item
referenced by the current missing set, forces `alarm_active := false`,
clears `missing_items`, and emits `alarm_acknowledged`. -/
def acknowledge_alarm (s : TrackingState) (now : ℚ) :
    TrackingState × List Event :=
  let tracked := s.missing_items.foldl
    (fun acc item => disableFirstById item.id acc) s.tracked_items
  ({ s with
      tracked_items := tracked
      alarm_active := false
      missing_items := [] },
   [Event.alarm_acknowledged now])

/-- The `enable_alarm` route handler's loop (`tracking_routes.py`): re-arm
the first tracked item carrying the given id (the handler returns inside the
loop). -/
def enableFirstById (i : String) : List TrackedItem → List TrackedItem
  | [] => []
  | t :: ts =>
      if t.id = i then { t with alarm_enabled := true } :: ts
      else t :: enableFirstById i ts

/-- The route handler `enable_alarm` (`tracking_routes.py`): re-arms the
first tracked item with the given id; reports `false` (the 404) when the id
is unknown. -/
def enable_alarm (item_id : String) (s : TrackingState) : Bool × TrackingState :=
  if s.tracked_items.any fun t => t.id = item_id then
    (true, { s with tracked_items := enableFirstById item_id s.tracked_items })
  else
    (false, s)

/-! ## Concrete states used in counterexamples and witnesses -/

/-- A tracked item as `add_to_tracking` would create it, sitting at
`(1000, 1000)`. -/
def itemFar : TrackedItem :=
  { id := "track_0_0", label := "a", confidence := 1, class_id := -1
    bbox := some ⟨1000, 1000, 10, 10⟩, added_at := 0, last_seen := 0
    is_present := true, alarm_enabled := true, missing_count := 0 }

/-- A state whose alarm fired for `itemFar` (non-empty missing set, active
alarm): the state a monitor cycle leaves behind once an item has been
missing past the grace period. -/
def sAlarmed : TrackingState :=
  { tracked_items := [itemFar]
    tracking_active := true
    tracking_interval := 5
    alarm_active := true
    missing_items := [itemFar]
    latest_detections := [] }

/-! ## C6 — clear / stop -/

/--
**C6, counterexample.** The claim says that after `clear()` — and likewise
after `stop()` — the alarm's `active` flag is false *and* the
`missing_items` set is empty.  On the state `sAlarmed` (one item missing,
alarm active) both `clear_tracking` and `stop_tracking` leave
`missing_items` untouched and non-empty: neither function writes
`state.missing_items` (`tracking_service.py` lines 50–54 and 213–216).
-/
theorem C6_counterexample :
    (clear_tracking sAlarmed).missing_items = [itemFar] ∧
    (clear_tracking sAlarmed).missing_items ≠ [] ∧
    (stop_tracking sAlarmed).missing_items = [itemFar] ∧
    (stop_tracking sAlarmed).missing_items ≠ [] := by
  refine ⟨rfl, ?_, rfl, ?_⟩ <;> simp [clear_tracking, stop_tracking, sAlarmed]

/--
**C6, amended.** `clear()` empties the registry and sets the
`tracking_active` and alarm `active` flags to false; `stop()` sets the same
two flags to false and leaves the registry untouched; neither operation
empties `missing_items`, which keeps its previous contents (as do the
tracking interval and the latest detections).
-/
theorem C6_clear_stop_amended (s : TrackingState) :
    (clear_tracking s).tracked_items = [] ∧
    (clear_tracking s).tracking_active = false ∧
    (clear_tracking s).alarm_active = false ∧
    (clear_tracking s).missing_items = s.missing_items ∧
    (clear_tracking s).tracking_interval = s.tracking_interval ∧
    (stop_tracking s).tracking_active = false ∧
    (stop_tracking s).alarm_active = false ∧
    (stop_tracking s).tracked_items = s.tracked_items ∧
    (stop_tracking s).missing_items = s.missing_items :=
  ⟨rfl, rfl, rfl, rfl, rfl, rfl, rfl, rfl, rfl⟩

/-! ## C9 — setInterval validation -/

/--
**C9.** `set_tracking_interval` succeeds exactly when its argument is an
integer in `[1, 60]`; any other input produces a reported failure (the
`false` result, not an exception) and leaves the whole state — in
particular the current tracking interval — unchanged; on success the
interval is replaced by the new value and nothing else changes.
-/
theorem C9_set_interval (v : PyVal) (s : TrackingState) :
    ((set_tracking_interval v s).1 = true ↔
      ∃ n : Int, v = PyVal.int n ∧ 1 ≤ n ∧ n ≤ 60) ∧
    ((set_tracking_interval v s).1 = false →
      (set_tracking_interval v s).2 = s) ∧
    (∀ n : Int, v = PyVal.int n → 1 ≤ n → n ≤ 60 →
      (set_tracking_interval v s).2 = { s with tracking_interval := n }) := by
  refine ⟨?_, ?_, ?_⟩
  · cases v with
    | int n =>
        simp only [set_tracking_interval, Config.MIN_TRACKING_INTERVAL,
          Config.MAX_TRACKING_INTERVAL]
        split
        · constructor
          · intro hh; exact Bool.noConfusion hh
          · rintro ⟨m, hm, h1, h60⟩
            cases hm
            omega
        · constructor
          · intro _
            exact ⟨n, rfl, by omega, by omega⟩
          · intro _; rfl
    | nonInt =>
        constructor
        · intro hh; exact Bool.noConfusion hh
        · rintro ⟨m, hm, -, -⟩
          exact PyVal.noConfusion hm
  · cases v with
    | int n =>
        simp only [set_tracking_interval, Config.MIN_TRACKING_INTERVAL,
          Config.MAX_TRACKING_INTERVAL]
        split
        · intro _; rfl
        · intro h; cases h
    | nonInt => intro _; rfl
  · rintro n rfl h1 h60
    simp only [set_tracking_interval, Config.MIN_TRACKING_INTERVAL,
      Config.MAX_TRACKING_INTERVAL]
    split
    · omega
    · rfl

/--
**C9, witness.** Concrete instances of `C9_set_interval`: input `30`
succeeds; input `0` fails and leaves the state unchanged; a non-integer
input fails and leaves the state unchanged.
-/
theorem C9_set_interval_witness :
    (set_tracking_interval (PyVal.int 30) initialState).1 = true ∧
    (set_tracking_interval (PyVal.int 0) initialState).2 = initialState ∧
    (set_tracking_interval PyVal.nonInt initialState).2 = initialState :=
  ⟨(C9_set_interval (PyVal.int 30) initialState).1.mpr
      ⟨30, rfl, by omega, by omega⟩,
   (C9_set_interval (PyVal.int 0) initialState).2.1 rfl,
   (C9_set_interval PyVal.nonInt initialState).2.1 rfl⟩

/-! ## Helper lemmas about the per-item cycle update -/

/-- Did the monitor find a match for this item in the latest batch
(`item_found` / `best_match` in the source)? -/
def matchedIn (tracked_item : TrackedItem) (dets : List Detection) : Bool :=
  (findBestMatch tracked_item dets).1.isSome

theorem updateItem_of_matched (item : TrackedItem) (dets : List Detection)
    (now : ℚ) (interval : Int) (m : Detection) (d : Option ℚ)
    (h : findBestMatch item dets = (some m, d)) :
    updateItem item dets now interval =
      ({ item with
          last_seen := now, is_present := true, bbox := m.bbox,
          missing_count := 0 }, false) := by
  unfold updateItem
  rw [h]

theorem updateItem_fst_of_unmatched (item : TrackedItem) (dets : List Detection)
    (now : ℚ) (interval : Int) (d : Option ℚ)
    (h : findBestMatch item dets = (none, d)) :
    (updateItem item dets now interval).1 =
      if item.missing_count + 1 ≥ 2 then
        { item with missing_count := item.missing_count + 1, is_present := false }
      else { item with missing_count := item.missing_count + 1 } := by
  unfold updateItem
  rw [h]
  by_cases h2 : item.missing_count + 1 ≥ 2
  · simp only [if_pos h2]
    split <;> rfl
  · simp only [if_neg h2]

theorem updateItem_snd_of_unmatched (item : TrackedItem) (dets : List Detection)
    (now : ℚ) (interval : Int) (d : Option ℚ)
    (h : findBestMatch item dets = (none, d)) :
    (updateItem item dets now interval).2 =
      (decide (item.missing_count + 1 ≥ 2) && item.alarm_enabled &&
        decide (now - item.last_seen >
          ((interval * Config.MISSING_ITEM_THRESHOLD_MULTIPLIER : Int) : ℚ))) := by
  unfold updateItem
  rw [h]
  by_cases h2 : item.missing_count + 1 ≥ 2 <;> by_cases ha : item.alarm_enabled <;>
    simp [h2, ha]

theorem updateItem_alarm_enabled (item : TrackedItem) (dets : List Detection)
    (now : ℚ) (interval : Int) :
    (updateItem item dets now interval).1.alarm_enabled = item.alarm_enabled := by
  rcases hf : findBestMatch item dets with ⟨fst, snd⟩
  cases fst with
  | some m => rw [updateItem_of_matched item dets now interval m snd hf]
  | none =>
      rw [updateItem_fst_of_unmatched item dets now interval snd hf]
      split <;> rfl

theorem updateItem_snd_false_of_alarm_disabled (item : TrackedItem)
    (dets : List Detection) (now : ℚ) (interval : Int)
    (h : item.alarm_enabled = false) :
    (updateItem item dets now interval).2 = false := by
  rcases hf : findBestMatch item dets with ⟨fst, snd⟩
  cases fst with
  | some m => rw [updateItem_of_matched item dets now interval m snd hf]
  | none =>
      rw [updateItem_snd_of_unmatched item dets now interval snd hf, h]
      simp

/-! ## C3 — hysteresis -/

/--
**C3.** Hysteresis of the per-item monitor update: a matching cycle resets
`missing_count` to 0 and sets `is_present := true`; a non-matching cycle
increments `missing_count` by exactly 1; `is_present` is newly set to false
only in a non-matching cycle whose incremented count reaches the fixed
threshold 2; in particular an item in the steady state (`missing_count = 0`,
`is_present = true`) keeps `is_present = true` after one missed cycle
(`missing_count = 1`), and a second consecutive missed cycle flips
`is_present` to false (`missing_count = 2`).
-/
theorem C3_hysteresis (item : TrackedItem) (dets : List Detection)
    (now : ℚ) (interval : Int) :
    (matchedIn item dets = true →
      (updateItem item dets now interval).1.missing_count = 0 ∧
      (updateItem item dets now interval).1.is_present = true) ∧
    (matchedIn item dets = false →
      (updateItem item dets now interval).1.missing_count =
        item.missing_count + 1) ∧
    ((updateItem item dets now interval).1.is_present = false →
      item.is_present = false ∨
      (matchedIn item dets = false ∧
        (updateItem item dets now interval).1.missing_count ≥ 2)) ∧
    (item.missing_count = 0 → item.is_present = true →
      matchedIn item dets = false →
      (updateItem item dets now interval).1.is_present = true ∧
      (updateItem item dets now interval).1.missing_count = 1) ∧
    (item.missing_count = 1 → matchedIn item dets = false →
      (updateItem item dets now interval).1.is_present = false ∧
      (updateItem item dets now interval).1.missing_count = 2) := by
  rcases hf : findBestMatch item dets with ⟨fst, snd⟩
  cases fst with
  | some m =>
      have hm : matchedIn item dets = true := by
        simp [matchedIn, hf]
      rw [updateItem_of_matched item dets now interval m snd hf]
      refine ⟨fun _ => ⟨rfl, rfl⟩, ?_, ?_, ?_, ?_⟩
      · intro h; rw [hm] at h; exact Bool.noConfusion h
      · intro h; exact Bool.noConfusion h
      · intro _ _ h; rw [hm] at h; exact Bool.noConfusion h
      · intro _ h; rw [hm] at h; exact Bool.noConfusion h
  | none =>
      have hm : matchedIn item dets = false := by
        simp [matchedIn, hf]
      rw [updateItem_fst_of_unmatched item dets now interval snd hf]
      refine ⟨?_, ?_, ?_, ?_, ?_⟩
      · intro h; rw [hm] at h; exact Bool.noConfusion h
      · intro _; split <;> rfl
      · intro h
        by_cases h2 : item.missing_count + 1 ≥ 2
        · right
          rw [if_pos h2] at h ⊢
          exact ⟨hm, h2⟩
        · left
          rw [if_neg h2] at h
          exact h
      · intro h0 hp _
        have h2 : ¬ item.missing_count + 1 ≥ 2 := by omega
        rw [if_neg h2]
        refine ⟨hp, ?_⟩
        show item.missing_count + 1 = 1
        omega
      · intro h1 _
        have h2 : item.missing_count + 1 ≥ 2 := by omega
        rw [if_pos h2]
        refine ⟨rfl, ?_⟩
        show item.missing_count + 1 = 2
        omega

/-- A detection sitting exactly on `itemA`'s box. -/
def detA : Detection :=
  { label := "a", confidence := 9 / 10, class_id := some 1
    bbox := some ⟨0, 0, 10, 10⟩ }

/-- A freshly added item at the origin (steady state: present, count 0). -/
def itemA : TrackedItem :=
  { id := "track_0_0", label := "a", confidence := 1, class_id := 1
    bbox := some ⟨0, 0, 10, 10⟩, added_at := 0, last_seen := 0
    is_present := true, alarm_enabled := true, missing_count := 0 }

theorem matchedIn_itemA_detA : matchedIn itemA [detA] = true := by
  norm_num [matchedIn, findBestMatch, bestLoop, isCandidate, itemA, detA,
    calculate_bbox_distance_sq, dLe, dLt]

/--
**C3, witness.** `C3_hysteresis` applied to the concrete item `itemA`: a
cycle matching `detA` resets the counters; an empty-batch cycle leaves it
present with `missing_count = 1`.
-/
theorem C3_hysteresis_witness :
    matchedIn itemA [detA] = true ∧
    (updateItem itemA [detA] 5 5).1.missing_count = 0 ∧
    (updateItem itemA [detA] 5 5).1.is_present = true ∧
    matchedIn itemA [] = false ∧
    (updateItem itemA [] 5 5).1.is_present = true ∧
    (updateItem itemA [] 5 5).1.missing_count = 1 := by
  have hm := matchedIn_itemA_detA
  have h1 := (C3_hysteresis itemA [detA] 5 5).1 hm
  have hu : matchedIn itemA [] = false := rfl
  have h2 := (C3_hysteresis itemA [] 5 5).2.2.2.1 rfl rfl hu
  exact ⟨hm, h1.1, h1.2, hu, h2.1, h2.2⟩

/-! ## C8 — missing-grace arithmetic -/

/-- An item whose second consecutive miss happens 11 s after `last_seen`. -/
def item11 : TrackedItem :=
  { id := "track_0_0", label := "a", confidence := 1, class_id := 1
    bbox := some ⟨0, 0, 10, 10⟩, added_at := 0, last_seen := 0
    is_present := true, alarm_enabled := true, missing_count := 1 }

/--
**C8.** An item joins a cycle's missing set only if the update left it with
`is_present = false`, its alarm is enabled, and the elapsed time since its
`last_seen` strictly exceeds `interval × MISSING_ITEM_THRESHOLD_MULTIPLIER`
seconds; with interval 5 and the multiplier 2 (threshold 10 s) an item
unseen for 9 s never joins the missing set, while `item11` — unseen for
11 s on its second consecutive miss — does join it.
-/
theorem C8_missing_grace :
    (∀ (item : TrackedItem) (dets : List Detection) (now : ℚ) (interval : Int),
      (updateItem item dets now interval).2 = true →
        (updateItem item dets now interval).1.is_present = false ∧
        item.alarm_enabled = true ∧
        now - item.last_seen >
          ((interval * Config.MISSING_ITEM_THRESHOLD_MULTIPLIER : Int) : ℚ)) ∧
    (∀ (item : TrackedItem) (dets : List Detection) (now : ℚ),
      now - item.last_seen = 9 → (updateItem item dets now 5).2 = false) ∧
    (updateItem item11 [] 11 5).2 = true := by
  refine ⟨?_, ?_, ?_⟩
  · intro item dets now interval h
    rcases hf : findBestMatch item dets with ⟨fst, snd⟩
    cases fst with
    | some m =>
        rw [updateItem_of_matched item dets now interval m snd hf] at h
        exact Bool.noConfusion h
    | none =>
        rw [updateItem_snd_of_unmatched item dets now interval snd hf] at h
        simp only [Bool.and_eq_true, decide_eq_true_eq] at h
        obtain ⟨⟨h2, ha⟩, ht⟩ := h
        refine ⟨?_, ha, ht⟩
        rw [updateItem_fst_of_unmatched item dets now interval snd hf, if_pos h2]
  · intro item dets now h9
    rcases hf : findBestMatch item dets with ⟨fst, snd⟩
    cases fst with
    | some m =>
        rw [updateItem_of_matched item dets now 5 m snd hf]
    | none =>
        have h10 : decide ((9 : ℚ) >
            ((5 * Config.MISSING_ITEM_THRESHOLD_MULTIPLIER : Int) : ℚ)) = false := by
          norm_num [Config.MISSING_ITEM_THRESHOLD_MULTIPLIER]
        rw [updateItem_snd_of_unmatched item dets now 5 snd hf, h9, h10]
        simp
  · have hf : findBestMatch item11 [] = (none, none) := rfl
    rw [updateItem_snd_of_unmatched item11 [] 11 5 none hf]
    norm_num [item11, Config.MISSING_ITEM_THRESHOLD_MULTIPLIER]

/--
**C8, witness.** `C8_missing_grace`'s necessity direction applied at the
concrete input `item11` (unseen for 11 s, second miss): the update marks it
absent, its alarm is enabled, and 11 s exceeds the 10 s grace period.
-/
theorem C8_missing_grace_witness :
    (updateItem item11 [] 11 5).1.is_present = false ∧
    item11.alarm_enabled = true ∧
    (11 : ℚ) - item11.last_seen >
      ((5 * Config.MISSING_ITEM_THRESHOLD_MULTIPLIER : Int) : ℚ) :=
  C8_missing_grace.1 item11 [] 11 5 C8_missing_grace.2.2

/-! ## C4 — monitor-time re-identification -/

theorem dLt_self (a : Option ℚ) : dLt a a = false := by
  cases a <;> simp [dLt]

theorem dLt_true_false {x b y : Option ℚ} (h1 : dLt x b = true)
    (h2 : dLt x y = false) : dLt b y = false := by
  cases x <;> cases b <;> cases y <;> simp_all [dLt]
  linarith

theorem dLt_false_trans {x y z : Option ℚ} (h1 : dLt x y = false)
    (h2 : dLt y z = false) : dLt x z = false := by
  cases x <;> cases y <;> cases z <;> simp_all [dLt]
  linarith

theorem isCandidate_distSq_isSome (item : TrackedItem) (d : Detection)
    (h : isCandidate item d = true) :
    (calculate_bbox_distance_sq item.bbox d.bbox).isSome = true := by
  rcases hb1 : item.bbox with _ | b1 <;> rcases hb2 : d.bbox with _ | b2 <;>
    rw [isCandidate, hb1, hb2] at h <;>
    simp only [calculate_bbox_distance_sq, calculate_bbox_overlap_ratio,
      dLe, Bool.and_eq_true, Bool.or_eq_true, decide_eq_true_eq] at h ⊢
  · exact absurd h (by norm_num)
  · exact absurd h (by norm_num)
  · exact absurd h (by norm_num)
  · rfl

/-- Full specification of the best-match accumulator loop: the result beats
every candidate in the scanned list as well as the incoming accumulator, and
is either the untouched accumulator or a candidate from the list paired with
its own distance. -/
theorem bestLoop_spec (item : TrackedItem) (dets : List Detection) :
    ∀ best : Option Detection × Option ℚ,
      (∀ d' ∈ dets, isCandidate item d' = true →
        dLt (calculate_bbox_distance_sq item.bbox d'.bbox)
            (bestLoop item dets best).2 = false) ∧
      dLt best.2 (bestLoop item dets best).2 = false ∧
      (bestLoop item dets best = best ∨
        ∃ d0, (bestLoop item dets best).1 = some d0 ∧ d0 ∈ dets ∧
          isCandidate item d0 = true ∧
          (bestLoop item dets best).2 =
            calculate_bbox_distance_sq item.bbox d0.bbox) := by
  induction dets with
  | nil =>
      intro best
      refine ⟨by simp, ?_, Or.inl rfl⟩
      show dLt best.2 best.2 = false
      exact dLt_self best.2
  | cons d rest ih =>
      intro best
      by_cases hc : (isCandidate item d &&
          dLt (calculate_bbox_distance_sq item.bbox d.bbox) best.2) = true
      · have hstep : bestLoop item (d :: rest) best =
            bestLoop item rest
              (some d, calculate_bbox_distance_sq item.bbox d.bbox) := by
          rw [bestLoop, if_pos hc]
        rw [Bool.and_eq_true] at hc
        obtain ⟨hcand, hlt⟩ := hc
        obtain ⟨ih1, ih2, ih3⟩ :=
          ih (some d, calculate_bbox_distance_sq item.bbox d.bbox)
        rw [hstep]
        refine ⟨?_, dLt_true_false hlt ih2, ?_⟩
        · intro d' hd' hcd'
          rcases List.mem_cons.mp hd' with rfl | hmem
          · exact ih2
          · exact ih1 d' hmem hcd'
        · rcases ih3 with heq | ⟨d0, h1, h2, h3, h4⟩
          · right
            refine ⟨d, ?_, List.mem_cons_self d rest, hcand, ?_⟩
            · rw [heq]
            · rw [heq]
          · right
            exact ⟨d0, h1, List.mem_cons_of_mem d h2, h3, h4⟩
      · have hstep : bestLoop item (d :: rest) best = bestLoop item rest best := by
          rw [bestLoop, if_neg hc]
        obtain ⟨ih1, ih2, ih3⟩ := ih best
        rw [hstep]
        refine ⟨?_, ih2, ?_⟩
        · intro d' hd' hcd'
          rcases List.mem_cons.mp hd' with rfl | hmem
          · have hlt : dLt (calculate_bbox_distance_sq item.bbox d'.bbox)
                best.2 = false := by
              rw [hcd', Bool.true_and] at hc
              exact Bool.not_eq_true _ ▸ Bool.eq_false_iff.mpr hc
            exact dLt_false_trans hlt ih2
          · exact ih1 d' hmem hcd'
        · rcases ih3 with heq | ⟨d0, h1, h2, h3, h4⟩
          · exact Or.inl heq
          · exact Or.inr ⟨d0, h1, List.mem_cons_of_mem d h2, h3, h4⟩

/-- A detection on `itemA`'s exact box but with a *different* class id. -/
def detC4 : Detection :=
  { label := "a", confidence := 9 / 10, class_id := some 2
    bbox := some ⟨0, 0, 10, 10⟩ }

theorem findBestMatch_itemA_detC4 :
    findBestMatch itemA [detC4] = (some detC4, some 0) := by
  norm_num [findBestMatch, bestLoop, isCandidate, itemA, detC4,
    calculate_bbox_distance_sq, dLe, dLt]

/--
**C4, counterexample.** The claim says monitor-time re-identification
matches only if the `class_id` also matches whenever it is present on both
sides.  The tracked item `itemA` carries `class_id = 1` and the detection
`detC4` carries `class_id = 2` — present on both sides and different — yet
the monitor loop (which never reads `class_id`,
`tracking_service.py` lines 111–131) selects `detC4` as the best match and
the cycle marks the item present.
-/
theorem C4_counterexample :
    (findBestMatch itemA [detC4]).1 = some detC4 ∧
    (updateItem itemA [detC4] 5 5).1.is_present = true ∧
    (updateItem itemA [detC4] 5 5).1.missing_count = 0 ∧
    itemA.class_id = 1 ∧ detC4.class_id = some 2 := by
  have hf := findBestMatch_itemA_detC4
  rw [updateItem_of_matched itemA [detC4] 5 5 detC4 (some 0) hf]
  exact ⟨by rw [hf], rfl, rfl, rfl, rfl⟩

/--
**C4, amended.** Monitor-time re-identification matches a tracked item to a
detection only if the labels are equal, the detection's confidence exceeds
the 0.3 floor, and the boxes pass the lenient thresholds (center distance
≤ 100 px or overlap ratio > 0.2) — the `class_id` is ignored by the monitor
loop; among all candidate detections passing these conditions the one with
the smallest center distance is selected (no candidate is strictly closer
than the returned match), not merely the first candidate encountered; no
match is reported exactly when no detection passes the conditions.
-/
theorem C4_best_match_amended :
    (∀ (item : TrackedItem) (dets : List Detection) (m : Detection)
        (q : Option ℚ),
      findBestMatch item dets = (some m, q) →
        m ∈ dets ∧ isCandidate item m = true ∧
        q = calculate_bbox_distance_sq item.bbox m.bbox ∧
        ∀ d' ∈ dets, isCandidate item d' = true →
          dLt (calculate_bbox_distance_sq item.bbox d'.bbox) q = false) ∧
    (∀ (item : TrackedItem) (dets : List Detection),
      (findBestMatch item dets).1 = none ↔
        ∀ d' ∈ dets, isCandidate item d' = false) := by
  constructor
  · intro item dets m q hf
    obtain ⟨h1, _h2, h3⟩ := bestLoop_spec item dets (none, none)
    rw [findBestMatch] at hf
    rcases h3 with heq | ⟨d0, hd1, hd2, hd3, hd4⟩
    · rw [hf] at heq
      exact absurd (congrArg Prod.fst heq) (by simp)
    · rw [hf] at hd1 hd4
      obtain rfl : m = d0 := by
        injection hd1
      refine ⟨hd2, hd3, hd4, ?_⟩
      intro d' hd' hcd'
      have := h1 d' hd' hcd'
      rw [hf] at this
      exact this
  · intro item dets
    constructor
    · intro hnone d' hd'
      by_contra hcand
      rw [Bool.not_eq_false] at hcand
      obtain ⟨h1, _h2, h3⟩ := bestLoop_spec item dets (none, none)
      rw [findBestMatch] at hnone
      have hq : (bestLoop item dets (none, none)).2 = none := by
        rcases h3 with heq | ⟨d0, hd1, _, _, _⟩
        · rw [heq]
        · rw [hnone] at hd1
          exact Option.noConfusion hd1
      have := h1 d' hd' hcand
      rw [hq] at this
      have hsome := isCandidate_distSq_isSome item d' hcand
      rcases hdq : calculate_bbox_distance_sq item.bbox d'.bbox with _ | qq
      · rw [hdq] at hsome
        exact Bool.noConfusion hsome
      · rw [hdq] at this
        simp [dLt] at this
    · intro hall
      obtain ⟨_h1, _h2, h3⟩ := bestLoop_spec item dets (none, none)
      rw [findBestMatch]
      rcases h3 with heq | ⟨d0, _, hd2, hd3, _⟩
      · rw [heq]
      · rw [hall d0 hd2] at hd3
        exact Bool.noConfusion hd3

/--
**C4, witness.** `C4_best_match_amended` applied to the concrete match of
`itemA` against `[detC4]` (best match at distance 0), discharging the match
hypothesis by evaluation.
-/
theorem C4_best_match_amended_witness :
    detC4 ∈ [detC4] ∧ isCandidate itemA detC4 = true ∧
    some (0 : ℚ) = calculate_bbox_distance_sq itemA.bbox detC4.bbox ∧
    ∀ d' ∈ [detC4], isCandidate itemA d' = true →
      dLt (calculate_bbox_distance_sq itemA.bbox d'.bbox) (some (0 : ℚ)) = false :=
  C4_best_match_amended.1 itemA [detC4] detC4 (some 0) findBestMatch_itemA_detC4

/-! ## C5 — add-time dedup -/

/-- Characterization of the dedup scan: some tracked item matches the label,
matches the class id whenever one was supplied, and — whenever a bbox was
supplied — passes the proximity-or-overlap test.  (With no bbox supplied the
geometric condition is vacuous: the source's label-only fallback.) -/
theorem is_object_already_tracked_iff (label : String) (class_id : Option Int)
    (bbox : Option BBox) (thr : ℚ) (items : List TrackedItem) :
    is_object_already_tracked label class_id bbox thr items = true ↔
      ∃ t ∈ items, t.label = label ∧
        (∀ c, class_id = some c → t.class_id = c) ∧
        (∀ b, bbox = some b →
          (dLe (calculate_bbox_distance_sq (some b) t.bbox) (thr * thr) = true ∨
            calculate_bbox_overlap_ratio (some b) t.bbox > 3 / 10)) := by
  rw [is_object_already_tracked, List.any_eq_true]
  cases class_id <;> cases bbox <;>
    simp [Bool.and_eq_true, Bool.or_eq_true, decide_eq_true_eq, and_assoc]

/-- A detection arriving without any bbox (`detection.get('bbox')` is
`None`). -/
def detNB : Detection :=
  { label := "a", confidence := 9 / 10, class_id := none, bbox := none }

/-- A registry holding only `itemFar` (label `"a"` at `(1000, 1000)`). -/
def sOneFar : TrackingState := { initialState with tracked_items := [itemFar] }

/--
**C5, counterexample.** The claim says `add(detection)` is rejected *iff*
some tracked item with equal label (and compatible class id) has a box
within 25 px or overlapping with ratio > 0.3.  For the bbox-less detection
`detNB` the geometric condition is false against `itemFar` — the center
distance is `+∞` (modelled `none`) and the overlap ratio is 0 — yet
`add_to_tracking` rejects it, because `is_object_already_tracked` falls back
to label-only matching when no bbox is supplied (`state.py` lines 160–163).
-/
theorem C5_counterexample :
    (add_to_tracking detNB 0 sOneFar).1 = none ∧
    calculate_bbox_distance_sq detNB.bbox itemFar.bbox = none ∧
    calculate_bbox_overlap_ratio detNB.bbox itemFar.bbox = 0 ∧
    itemFar.label = detNB.label := by
  exact ⟨rfl, rfl, rfl, rfl⟩

/--
**C5, amended.** `add(detection)` returns the rejection value `None`
(distinguished from success, not an error) iff some tracked item has an
equal label, an equal class id whenever the detection supplies one, and —
whenever the detection supplies a bbox — a box within 25 px center distance
or overlapping with ratio > 0.3; when the detection supplies no bbox the
label/class match alone already rejects (label-only fallback).  On
rejection the state is unchanged; otherwise the new item is appended with
`missing_count = 0`, `is_present = true`, `alarm_enabled = true`, and all
previously tracked items are left unchanged.
-/
theorem C5_add_dedup_amended :
    (∀ (det : Detection) (now : ℚ) (s : TrackingState),
      ((add_to_tracking det now s).1 = none ↔
        ∃ t ∈ s.tracked_items, t.label = det.label ∧
          (∀ c, det.class_id = some c → t.class_id = c) ∧
          (∀ b, det.bbox = some b →
            (dLe (calculate_bbox_distance_sq (some b) t.bbox) (25 * 25) = true ∨
              calculate_bbox_overlap_ratio (some b) t.bbox > 3 / 10)))) ∧
    (∀ (det : Detection) (now : ℚ) (s : TrackingState),
      (add_to_tracking det now s).1 = none → (add_to_tracking det now s).2 = s) ∧
    (∀ (det : Detection) (now : ℚ) (s : TrackingState) (item : TrackedItem),
      (add_to_tracking det now s).1 = some item →
        item = mkTrackedItem det s.tracked_items.length now ∧
        (add_to_tracking det now s).2.tracked_items =
          s.tracked_items ++ [item] ∧
        item.missing_count = 0 ∧ item.is_present = true ∧
        item.alarm_enabled = true) := by
  refine ⟨?_, ?_, ?_⟩
  · intro det now s
    rw [add_to_tracking]
    by_cases hd : is_object_already_tracked det.label det.class_id det.bbox 25
        s.tracked_items = true
    · rw [if_pos hd]
      simp only [true_iff]
      exact (is_object_already_tracked_iff det.label det.class_id det.bbox 25
        s.tracked_items).mp hd
    · rw [if_neg hd]
      simp only [reduceCtorEq, false_iff]
      intro hex
      exact hd ((is_object_already_tracked_iff det.label det.class_id det.bbox 25
        s.tracked_items).mpr hex)
  · intro det now s
    rw [add_to_tracking]
    split
    · intro _; rfl
    · intro h; exact Option.noConfusion h
  · intro det now s item
    rw [add_to_tracking]
    split
    · intro h; exact Option.noConfusion h
    · intro h
      obtain rfl : mkTrackedItem det s.tracked_items.length now = item :=
        Option.some.inj h
      exact ⟨rfl, rfl, rfl, rfl, rfl⟩

/--
**C5, witness.** `C5_add_dedup_amended` applied to adding `detA` to the
empty initial registry: the add succeeds and creates the expected fresh
item.
-/
theorem C5_add_dedup_amended_witness :
    mkTrackedItem detA 0 0 =
      mkTrackedItem detA initialState.tracked_items.length 0 ∧
    (add_to_tracking detA 0 initialState).2.tracked_items =
      initialState.tracked_items ++ [mkTrackedItem detA 0 0] ∧
    (mkTrackedItem detA 0 0).missing_count = 0 ∧
    (mkTrackedItem detA 0 0).is_present = true ∧
    (mkTrackedItem detA 0 0).alarm_enabled = true :=
  C5_add_dedup_amended.2.2 detA 0 initialState (mkTrackedItem detA 0 0) rfl

/-! ## C7 — registry id uniqueness -/

theorem add_not_tracked (det : Detection) (now : ℚ) (s : TrackingState)
    (h : is_object_already_tracked det.label det.class_id det.bbox 25
        s.tracked_items = false) :
    add_to_tracking det now s =
      (some (mkTrackedItem det s.tracked_items.length now),
       { s with tracked_items :=
          s.tracked_items ++ [mkTrackedItem det s.tracked_items.length now] }) := by
  rw [add_to_tracking, if_neg]
  rw [h]
  exact Bool.noConfusion

/-- Three detections with the same label, far apart from each other. -/
def dA : Detection :=
  { label := "a", confidence := 1, class_id := some 1, bbox := some ⟨0, 0, 10, 10⟩ }

def dB : Detection :=
  { label := "a", confidence := 1, class_id := some 1
    bbox := some ⟨1000, 0, 10, 10⟩ }

def dC : Detection :=
  { label := "a", confidence := 1, class_id := some 1
    bbox := some ⟨2000, 0, 10, 10⟩ }

/-- Add `dA`, add `dB`, remove the first item, add `dC` — all within the
same wall-clock second (`time.time() = 1000`). -/
def s7a : TrackingState := (add_to_tracking dA 1000 initialState).2

def s7b : TrackingState := (add_to_tracking dB 1000 s7a).2

def s7c : TrackingState := remove_from_tracking "track_0_1000" s7b

def s7d : TrackingState := (add_to_tracking dC 1000 s7c).2

theorem not_tracked_dB :
    is_object_already_tracked dB.label dB.class_id dB.bbox 25
      [mkTrackedItem dA 0 1000] = false := by
  norm_num [is_object_already_tracked, mkTrackedItem, dA, dB,
    calculate_bbox_distance_sq, calculate_bbox_overlap_ratio, dLe]

theorem not_tracked_dC :
    is_object_already_tracked dC.label dC.class_id dC.bbox 25
      [mkTrackedItem dB 1 1000] = false := by
  norm_num [is_object_already_tracked, mkTrackedItem, dB, dC,
    calculate_bbox_distance_sq, calculate_bbox_overlap_ratio, dLe]

/--
**C7 (code bug).** The claim — and the spec's data-model invariant — say
registry ids of simultaneously present items are pairwise distinct.  The id
scheme `track_{len(tracked_items)}_{int(time.time())}`
(`tracking_service.py` line 31) breaks this: after add(`dA`), add(`dB`),
remove of the first id, and add(`dC`), all within wall-clock second 1000,
the registry simultaneously holds two items whose ids are both
`"track_1_1000"` — `dB`'s item (created at length 1) and `dC`'s item
(created at length 1 again after the removal).
-/
theorem C7_id_collision :
    s7d.tracked_items.map (fun t => t.id) = ["track_1_1000", "track_1_1000"] ∧
    ¬ (s7d.tracked_items.map (fun t => t.id)).Nodup := by
  have h1 : (add_to_tracking dA 1000 initialState).2 =
      { initialState with tracked_items := [mkTrackedItem dA 0 1000] } :=
    congrArg Prod.snd (add_not_tracked dA 1000 initialState rfl)
  have h2 : (add_to_tracking dB 1000
        { initialState with tracked_items := [mkTrackedItem dA 0 1000] }).2 =
      { initialState with
        tracked_items := [mkTrackedItem dA 0 1000, mkTrackedItem dB 1 1000] } :=
    congrArg Prod.snd (add_not_tracked dB 1000
      { initialState with tracked_items := [mkTrackedItem dA 0 1000] }
      not_tracked_dB)
  have h3 : remove_from_tracking "track_0_1000"
      { initialState with
        tracked_items := [mkTrackedItem dA 0 1000, mkTrackedItem dB 1 1000] } =
      { initialState with tracked_items := [mkTrackedItem dB 1 1000] } := by
    rw [remove_from_tracking]
    congr 1
  have h4 : (add_to_tracking dC 1000
        { initialState with tracked_items := [mkTrackedItem dB 1 1000] }).2 =
      { initialState with
        tracked_items := [mkTrackedItem dB 1 1000, mkTrackedItem dC 1 1000] } :=
    congrArg Prod.snd (add_not_tracked dC 1000
      { initialState with tracked_items := [mkTrackedItem dB 1 1000] }
      not_tracked_dC)
  have hs : s7d = { initialState with
      tracked_items := [mkTrackedItem dB 1 1000, mkTrackedItem dC 1 1000] } := by
    unfold s7d s7c s7b s7a
    rw [h1, h2, h3, h4]
  rw [hs]
  constructor
  · decide
  · decide

/-! ## C2 — acknowledge semantics -/

theorem map_if_id_untouched {i : String} (f : TrackedItem → TrackedItem)
    (ts : List TrackedItem) (h : i ∉ ts.map fun t => t.id) :
    (ts.map fun t => if t.id = i then f t else t) = ts := by
  induction ts with
  | nil => rfl
  | cons t ts ih =>
      simp only [List.map_cons, List.mem_cons, not_or] at h
      rw [List.map_cons, if_neg (fun hc => h.1 hc.symm), ih h.2]

theorem disableFirstById_eq_map (i : String) (ts : List TrackedItem)
    (h : (ts.map fun t => t.id).Nodup) :
    disableFirstById i ts =
      ts.map fun t => if t.id = i then { t with alarm_enabled := false } else t := by
  induction ts with
  | nil => rfl
  | cons t ts ih =>
      rw [List.map_cons, List.nodup_cons] at h
      by_cases hid : t.id = i
      · rw [disableFirstById, if_pos hid, List.map_cons, if_pos hid,
          map_if_id_untouched _ ts (hid ▸ h.1)]
      · rw [disableFirstById, if_neg hid, List.map_cons, if_neg hid, ih h.2]

theorem ack_foldl (ms : List TrackedItem) :
    ∀ ts : List TrackedItem, (ts.map fun t => t.id).Nodup →
      ms.foldl (fun acc m => disableFirstById m.id acc) ts =
        ts.map fun t =>
          if t.id ∈ (ms.map fun m => m.id) then
            { t with alarm_enabled := false } else t := by
  induction ms with
  | nil =>
      intro ts _
      simp
  | cons m ms ih =>
      intro ts h
      rw [List.foldl_cons, disableFirstById_eq_map m.id ts h]
      have hids : ((ts.map fun t =>
          if t.id = m.id then { t with alarm_enabled := false } else t).map
            fun t => t.id) = ts.map fun t => t.id := by
        rw [List.map_map]
        apply List.map_congr_left
        intro t _
        by_cases hid : t.id = m.id
        · rw [Function.comp_apply, if_pos hid]
        · rw [Function.comp_apply, if_neg hid]
      rw [ih _ (hids ▸ h), List.map_map]
      apply List.map_congr_left
      intro t _
      rw [Function.comp_apply]
      by_cases hid : t.id = m.id
      · rw [if_pos hid]
        by_cases hmem : t.id ∈ ms.map fun m => m.id
        · rw [if_pos hmem, if_pos (by rw [List.map_cons]; exact List.mem_cons_of_mem _ hmem)]
        · rw [if_neg hmem, if_pos (by rw [List.map_cons, hid]; exact List.mem_cons_self _ _)]
      · rw [if_neg hid]
        by_cases hmem : t.id ∈ ms.map fun m => m.id
        · rw [if_pos hmem, if_pos (by rw [List.map_cons]; exact List.mem_cons_of_mem _ hmem)]
        · rw [if_neg hmem, if_neg (by rw [List.map_cons]; simp [hid, hmem])]

theorem alarmUpdate_nil_no_trigger (a : Bool) (now : ℚ) :
    ((alarmUpdate a [] now).2.any Event.isTriggered) = false := by
  cases a <;> simp [alarmUpdate, Event.isTriggered]

theorem runCycle_no_trigger_of_all_disabled (s : TrackingState) (now : ℚ)
    (h : ∀ t ∈ s.tracked_items, t.alarm_enabled = false) :
    ((runCycle s now).2.any Event.isTriggered) = false := by
  rw [runCycle]
  split
  · rfl
  · have hm : currentMissing s now = [] := by
      rw [currentMissing]
      have : (cycleResults s now).filter (fun r => r.2) = [] := by
        rw [List.filter_eq_nil_iff]
        intro r hr
        obtain ⟨t, ht, rfl⟩ := List.mem_map.mp hr
        rw [updateItem_snd_false_of_alarm_disabled t s.latest_detections now
          s.tracking_interval (h t ht)]
        exact Bool.noConfusion
      rw [this, List.map_nil]
    rw [hm]
    exact alarmUpdate_nil_no_trigger s.alarm_active now

/--
**C2.** `acknowledge()` (with pairwise-distinct registry ids) rewrites the
registry so that exactly the items referenced by the current missing set get
`alarm_enabled := false`, clears `missing_items`, forces the alarm's
`active` flag to false, and emits only `alarm_acknowledged`; no item is
removed (the id sequence is unchanged) and no item's `is_present` or label
changes; and if every tracked item was in the acknowledged missing set, a
subsequent monitor cycle — with any detection batch, in particular one in
which those items are still absent — emits no `alarm_triggered` (absent an
intervening `enableAlarm`).
-/
theorem C2_acknowledge (s : TrackingState) (now : ℚ)
    (hnd : (s.tracked_items.map fun t => t.id).Nodup) :
    (acknowledge_alarm s now).1.tracked_items =
      (s.tracked_items.map fun t =>
        if t.id ∈ (s.missing_items.map fun m => m.id) then
          { t with alarm_enabled := false } else t) ∧
    (acknowledge_alarm s now).1.missing_items = [] ∧
    (acknowledge_alarm s now).1.alarm_active = false ∧
    ((acknowledge_alarm s now).1.tracked_items.map fun t => t.id) =
      (s.tracked_items.map fun t => t.id) ∧
    ((acknowledge_alarm s now).1.tracked_items.map fun t => t.is_present) =
      (s.tracked_items.map fun t => t.is_present) ∧
    ((acknowledge_alarm s now).1.tracked_items.map fun t => t.label) =
      (s.tracked_items.map fun t => t.label) ∧
    (∀ t ∈ (acknowledge_alarm s now).1.tracked_items,
      t.id ∈ (s.missing_items.map fun m => m.id) → t.alarm_enabled = false) ∧
    (acknowledge_alarm s now).2 = [Event.alarm_acknowledged now] ∧
    ((∀ t ∈ s.tracked_items, t.id ∈ (s.missing_items.map fun m => m.id)) →
      ∀ (dets : List Detection) (now2 : ℚ),
        (((runCycle { (acknowledge_alarm s now).1 with
            latest_detections := dets } now2).2).any Event.isTriggered) = false) := by
  have hfold : (acknowledge_alarm s now).1.tracked_items =
      s.tracked_items.map fun t =>
        if t.id ∈ (s.missing_items.map fun m => m.id) then
          { t with alarm_enabled := false } else t :=
    ack_foldl s.missing_items s.tracked_items hnd
  refine ⟨hfold, rfl, rfl, ?_, ?_, ?_, ?_, rfl, ?_⟩
  · rw [hfold, List.map_map]
    apply List.map_congr_left
    intro t _
    rw [Function.comp_apply]
    split <;> rfl
  · rw [hfold, List.map_map]
    apply List.map_congr_left
    intro t _
    rw [Function.comp_apply]
    split <;> rfl
  · rw [hfold, List.map_map]
    apply List.map_congr_left
    intro t _
    rw [Function.comp_apply]
    split <;> rfl
  · intro t ht hmem
    rw [hfold] at ht
    obtain ⟨t0, _, rfl⟩ := List.mem_map.mp ht
    by_cases h0 : t0.id ∈ s.missing_items.map fun m => m.id
    · rw [if_pos h0]
    · rw [if_neg h0] at hmem ⊢
      exact absurd hmem h0
  · intro hall dets now2
    apply runCycle_no_trigger_of_all_disabled
    intro t ht
    have ht' : t ∈ (acknowledge_alarm s now).1.tracked_items := ht
    rw [hfold] at ht'
    obtain ⟨t0, ht0, rfl⟩ := List.mem_map.mp ht'
    rw [if_pos (hall t0 ht0)]

/--
**C2, witness.** `C2_acknowledge` applied to the concrete alarmed state
`sAlarmed` (one tracked item, currently missing, alarm active): after
acknowledging, the missing set is empty, the alarm is off, and no
subsequent cycle triggers the alarm again.
-/
theorem C2_acknowledge_witness :
    (acknowledge_alarm sAlarmed 5).1.tracked_items =
      (sAlarmed.tracked_items.map fun t =>
        if t.id ∈ (sAlarmed.missing_items.map fun m => m.id) then
          { t with alarm_enabled := false } else t) ∧
    (acknowledge_alarm sAlarmed 5).1.missing_items = [] ∧
    (acknowledge_alarm sAlarmed 5).1.alarm_active = false ∧
    ∀ (dets : List Detection) (now2 : ℚ),
      (((runCycle { (acknowledge_alarm sAlarmed 5).1 with
          latest_detections := dets } now2).2).any Event.isTriggered) = false := by
  have h := C2_acknowledge sAlarmed 5 (by decide)
  exact ⟨h.1, h.2.1, h.2.2.1,
    fun dets now2 => h.2.2.2.2.2.2.2.2 (by decide) dets now2⟩

/-! ## C1 — edge-triggered alarm -/

theorem alarmUpdate_active (a : Bool) (m : List TrackedItem) (now : ℚ) :
    (alarmUpdate a m now).1 = !m.isEmpty := by
  cases m <;> cases a <;> simp [alarmUpdate]

theorem alarmUpdate_trigger (a : Bool) (m : List TrackedItem) (now : ℚ) :
    ((alarmUpdate a m now).2.any Event.isTriggered) = (!m.isEmpty && !a) := by
  cases m <;> cases a <;> simp [alarmUpdate, Event.isTriggered]

theorem alarmUpdate_clear (a : Bool) (m : List TrackedItem) (now : ℚ) :
    ((alarmUpdate a m now).2.any Event.isCleared) = (m.isEmpty && a) := by
  cases m <;> cases a <;> simp [alarmUpdate, Event.isCleared]

/-- A cycle run from an alarm-consistent state keeps the invariant
`alarm_active = (missing set non-empty)` and emits the trigger/clear events
exactly on the corresponding condition of the source's alarm block. -/
theorem runCycle_invariant (s : TrackingState) (now : ℚ)
    (h : s.alarm_active = !s.missing_items.isEmpty) :
    (runCycle s now).1.alarm_active =
      !(runCycle s now).1.missing_items.isEmpty ∧
    ((runCycle s now).2.any Event.isTriggered) =
      (!(runCycle s now).1.missing_items.isEmpty && !s.alarm_active) ∧
    ((runCycle s now).2.any Event.isCleared) =
      ((runCycle s now).1.missing_items.isEmpty && s.alarm_active) := by
  rw [runCycle]
  split
  · refine ⟨h, ?_, ?_⟩
    · rw [h]
      cases hm : s.missing_items.isEmpty <;> simp
    · rw [h]
      cases hm : s.missing_items.isEmpty <;> simp
  · exact ⟨alarmUpdate_active s.alarm_active (currentMissing s now) now,
      alarmUpdate_trigger s.alarm_active (currentMissing s now) now,
      alarmUpdate_clear s.alarm_active (currentMissing s now) now⟩

theorem monitorRun_edge_flags (ins : List (List Detection × ℚ)) :
    ∀ s : TrackingState, s.alarm_active = !s.missing_items.isEmpty →
      triggerFlagsOf (monitorRun s ins) =
        specTriggerEdges s.alarm_active (missingFlagsOf (monitorRun s ins)) ∧
      clearFlagsOf (monitorRun s ins) =
        specClearEdges s.alarm_active (missingFlagsOf (monitorRun s ins)) ∧
      ∀ step ∈ monitorRun s ins,
        step.1.alarm_active = !step.1.missing_items.isEmpty := by
  induction ins with
  | nil =>
      intro s _
      exact ⟨rfl, rfl, fun step hstep => absurd hstep (List.not_mem_nil step)⟩
  | cons p rest ih =>
      intro s h
      obtain ⟨dets, now⟩ := p
      obtain ⟨ha, ht, hc⟩ :=
        runCycle_invariant { s with latest_detections := dets } now h
      obtain ⟨ih1, ih2, ih3⟩ :=
        ih (runCycle { s with latest_detections := dets } now).1 ha
      simp only [monitorRun, triggerFlagsOf, clearFlagsOf, missingFlagsOf,
        List.map_cons, specTriggerEdges, specClearEdges]
      simp only [triggerFlagsOf, clearFlagsOf, missingFlagsOf] at ih1 ih2
      refine ⟨?_, ?_, ?_⟩
      · rw [ht, ih1, ha]
      · rw [hc, ih2, ha]
        simp only [Bool.not_not]
      · intro step hstep
        rcases List.mem_cons.mp hstep with rfl | hmem
        · exact ha
        · exact ih3 step hmem

/--
**C1.** The alarm is edge-triggered.  Over any run of monitor cycles
started from an alarm-consistent state (`alarm_active` agrees with the
missing set being non-empty — in particular any state with the alarm off
and no missing items), the per-cycle `alarm_triggered` emissions coincide
with the spec's edge detector on the sequence of per-cycle missing sets: the
event fires exactly on a cycle whose missing set is non-empty while the
previous one (initially: the starting state's) was empty, i.e. while
`active` was false — and so exactly once per such transition, never again
while the missing set stays non-empty; dually `alarm_cleared` fires exactly
on the non-empty-to-empty transitions while `active` is true; and after
every cycle `active` equals "missing set non-empty" (so a trigger sets it
true, a clear sets it false).
-/
theorem C1_alarm_edge_triggered (s : TrackingState)
    (ins : List (List Detection × ℚ))
    (h : s.alarm_active = !s.missing_items.isEmpty) :
    triggerFlagsOf (monitorRun s ins) =
      specTriggerEdges s.alarm_active (missingFlagsOf (monitorRun s ins)) ∧
    clearFlagsOf (monitorRun s ins) =
      specClearEdges s.alarm_active (missingFlagsOf (monitorRun s ins)) ∧
    ∀ step ∈ monitorRun s ins,
      step.1.alarm_active = !step.1.missing_items.isEmpty :=
  monitorRun_edge_flags ins s h

/-- The tracked item of the C1 witness run. -/
def itemW : TrackedItem :=
  { id := "track_0_0", label := "a", confidence := 1, class_id := 1
    bbox := some ⟨0, 0, 10, 10⟩, added_at := 0, last_seen := 0
    is_present := true, alarm_enabled := true, missing_count := 0 }

/-- The C1 witness start state: one tracked item, alarm off, no missing
items. -/
def sW : TrackingState :=
  { tracked_items := [itemW]
    tracking_active := true
    tracking_interval := 5
    alarm_active := false
    missing_items := []
    latest_detections := [] }

/-- Four cycles: three with an empty detection batch (at 100 s, 200 s,
300 s), then one where the item is detected again (310 s). -/
def insW : List (List Detection × ℚ) :=
  [([], 100), ([], 200), ([], 300), ([detA], 310)]

theorem monitorRun_W_flags :
    missingFlagsOf (monitorRun sW insW) = [false, true, true, false] ∧
    triggerFlagsOf (monitorRun sW insW) = [false, true, false, false] ∧
    clearFlagsOf (monitorRun sW insW) = [false, false, false, true] := by
  refine ⟨?_, ?_, ?_⟩ <;>
    norm_num [monitorRun, runCycle, cycleResults, currentMissing, alarmUpdate,
      updateItem, findBestMatch, bestLoop, isCandidate,
      calculate_bbox_distance_sq, calculate_bbox_overlap_ratio, dLe, dLt,
      triggerFlagsOf, missingFlagsOf, clearFlagsOf, Event.isTriggered,
      Event.isCleared, sW, insW, itemW, detA,
      Config.MISSING_ITEM_THRESHOLD_MULTIPLIER]

/--
**C1, witness.** `C1_alarm_edge_triggered` applied to a concrete four-cycle
run: the item goes missing (trigger fires once on the second cycle), stays
missing (no second trigger on the third cycle), and is found again (clear
fires on the fourth cycle).
-/
theorem C1_alarm_edge_triggered_witness :
    sW.alarm_active = false ∧ sW.missing_items = [] ∧
    triggerFlagsOf (monitorRun sW insW) =
      specTriggerEdges sW.alarm_active (missingFlagsOf (monitorRun sW insW)) ∧
    clearFlagsOf (monitorRun sW insW) =
      specClearEdges sW.alarm_active (missingFlagsOf (monitorRun sW insW)) ∧
    triggerFlagsOf (monitorRun sW insW) = [false, true, false, false] ∧
    clearFlagsOf (monitorRun sW insW) = [false, false, false, true] := by
  obtain ⟨h1, h2, _⟩ := C1_alarm_edge_triggered sW insW rfl
  exact ⟨rfl, rfl, h1, h2, monitorRun_W_flags.2.1, monitorRun_W_flags.2.2⟩

/-! ## C10 — no one-to-one assignment between items and detections -/

/-- Two tracked items with the same label, 20 px apart. -/
def itemX : TrackedItem :=
  { id := "track_0_50", label := "a", confidence := 1, class_id := 1
    bbox := some ⟨0, 0, 10, 10⟩, added_at := 0, last_seen := 0
    is_present := false, alarm_enabled := true, missing_count := 3 }

def itemY : TrackedItem :=
  { id := "track_1_50", label := "a", confidence := 1, class_id := 1
    bbox := some ⟨20, 0, 10, 10⟩, added_at := 0, last_seen := 0
    is_present := false, alarm_enabled := true, missing_count := 2 }

/-- A single detection halfway between the two items (10 px from each
center). -/
def det10 : Detection :=
  { label := "a", confidence := 9 / 10, class_id := some 1
    bbox := some ⟨10, 0, 10, 10⟩ }

/-- A monitor state tracking both items with only `det10` in the latest
batch. -/
def s10 : TrackingState :=
  { tracked_items := [itemX, itemY]
    tracking_active := true
    tracking_interval := 5
    alarm_active := false
    missing_items := []
    latest_detections := [det10] }

/--
**C10.** A monitor cycle matches tracked items to detections independently,
with no one-to-one assignment: in `s10`, the single detection `det10` is the
best match of both same-label items `itemX` and `itemY` simultaneously, and
one cycle marks both items present with `missing_count = 0` (and an empty
missing set).
-/
theorem C10_shared_best_match :
    itemX.label = itemY.label ∧
    (findBestMatch itemX [det10]).1 = some det10 ∧
    (findBestMatch itemY [det10]).1 = some det10 ∧
    ((runCycle s10 7).1.tracked_items.map fun t => (t.is_present, t.missing_count)) =
      [(true, 0), (true, 0)] ∧
    (runCycle s10 7).1.missing_items = [] := by
  refine ⟨rfl, ?_, ?_, ?_, ?_⟩ <;>
    norm_num [findBestMatch, bestLoop, isCandidate, runCycle, cycleResults,
      currentMissing, updateItem, alarmUpdate, calculate_bbox_distance_sq,
      calculate_bbox_overlap_ratio, dLe, dLt, itemX, itemY, det10, s10]

end MLproject
